import Mathlib

set_option linter.unusedVariables false

/-!
Verification of the azureml-workshop-2020 repository (two notebooks:
a local model-explanation notebook and an enterprise-readiness
provisioning/deployment notebook) against its natural-language
specification.  The Python glue code is shallowly embedded below:
pandas data frames become lists of named, typed columns; JSON values
become an inductive type with a serializer standing for json.dumps;
external SDK calls that can raise become Except-valued parameters.
-/

/-- JSON values, as produced and consumed by the notebooks' json module
and pandas serialization. Numbers are restricted to integers, which is
all the scoring payloads use. -/
inductive Json where
  | null : Json
  | bool (b : Bool) : Json
  | num (n : Int) : Json
  | str (s : String) : Json
  | arr (elems : List Json) : Json
  | obj (fields : List (String × Json)) : Json

mutual

/-- Serializer for Json values, embedding Python's json.dumps (string
escaping is not modelled; the payload strings in scope contain no
characters needing escapes). -/
def Json.dumps : Json → String
  | Json.null => "null"
  | Json.bool b => if b then "true" else "false"
  | Json.num n => toString n
  | Json.str s => "\"" ++ s ++ "\""
  | Json.arr elems => "[" ++ Json.dumpsArr elems ++ "]"
  | Json.obj fields => "\x7b" ++ Json.dumpsObj fields ++ "\x7d"

/-- Comma-separated serialization of a JSON array's elements. -/
def Json.dumpsArr : List Json → String
  | [] => ""
  | [x] => Json.dumps x
  | x :: xs => Json.dumps x ++ ", " ++ Json.dumpsArr xs

/-- Comma-separated serialization of a JSON object's fields. -/
def Json.dumpsObj : List (String × Json) → String
  | [] => ""
  | [kv] => "\"" ++ kv.1 ++ "\": " ++ Json.dumps kv.2
  | kv :: kvs => "\"" ++ kv.1 ++ "\": " ++ Json.dumps kv.2 ++ ", " ++ Json.dumpsObj kvs

end

/-- Field lookup in a JSON value: the value under key k when the value
is an object containing k, and none otherwise. -/
def Json.getKey : Json → String → Option Json
  | Json.obj fields, k => fields.lookup k
  | _, _ => none

/-- The run function of score.py (cell 22 of the enterprise-readiness
notebook).  The external call model.predict(data) either yields a
prediction array (embedded as a list of integers, result.tolist()) or
raises; its outcome is the predictOutcome argument, with the raised
exception carried as its message string str(e).  run returns
json.dumps of a dict in both branches, so its result type is String. -/
def runScore (predictOutcome : Except String (List Int)) : String :=
  match predictOutcome with
  | Except.ok result => Json.dumps (Json.obj [("result", Json.arr (result.map Json.num))])
  | Except.error e => Json.dumps (Json.obj [("error", Json.str e)])

/-- The dict that run serializes: the payload underneath the json.dumps
call in each branch of runScore. -/
def runPayload (predictOutcome : Except String (List Int)) : Json :=
  match predictOutcome with
  | Except.ok result => Json.obj [("result", Json.arr (result.map Json.num))]
  | Except.error e => Json.obj [("error", Json.str e)]

theorem runScore_eq_dumps_runPayload (p : Except String (List Int)) :
    runScore p = Json.dumps (runPayload p) := by
  cases p <;> rfl

/-- C1 (amended): for every outcome of model.predict, the payload run
serializes contains either the key result (whose value is the JSON
array of the predictions, a one-element array for a single input row)
or the key error, and never both keys at once. -/
theorem c1_result_xor_error (p : Except String (List Int)) :
    ((runPayload p).getKey "result" = none ∨ (runPayload p).getKey "error" = none) ∧
    (∀ ys : List Int, p = Except.ok ys →
      (runPayload p).getKey "result" = some (Json.arr (ys.map Json.num)) ∧
      (runPayload p).getKey "error" = none) ∧
    (∀ e : String, p = Except.error e →
      (runPayload p).getKey "error" = some (Json.str e) ∧
      (runPayload p).getKey "result" = none) := by
  refine ⟨?_, ?_, ?_⟩
  · cases p with
    | ok ys => right; rfl
    | error e => left; rfl
  · intro ys hp; subst hp; exact ⟨rfl, rfl⟩
  · intro e hp; subst hp; exact ⟨rfl, rfl⟩

theorem c1_result_xor_error_witness :
    (runPayload (Except.ok [(0 : Int)])).getKey "result" =
      some (Json.arr [Json.num 0]) ∧
    (runPayload (Except.ok [(0 : Int)])).getKey "error" = none :=
  (c1_result_xor_error (Except.ok [(0 : Int)])).2.1 [0] rfl

/-- C1 counterexample: at the concrete predict outcome [0] (the model's
prediction for one input row), the value stored under the key result is
the one-element JSON array containing 0, and is not the JSON number 0
nor the JSON number 1, so the value is not a single integer 0 or 1 as
the claim states. -/
theorem c1_counterexample :
    (runPayload (Except.ok [(0 : Int)])).getKey "result" =
      some (Json.arr [Json.num 0]) ∧
    Json.arr [Json.num 0] ≠ Json.num 0 ∧
    Json.arr [Json.num 0] ≠ Json.num 1 :=
  ⟨rfl, fun h => Json.noConfusion h, fun h => Json.noConfusion h⟩

/-- C2: run is total over the outcome of model.predict: whenever
model.predict raises an exception with message e, run catches it and
returns the serialized payload with single key error bound to str(e),
rather than propagating the exception (runScore is a total function
into String, so the scoring call never raises). -/
theorem c2_run_catches_all (e : String) :
    runScore (Except.error e) = Json.dumps (Json.obj [("error", Json.str e)]) ∧
    (runPayload (Except.error e)).getKey "error" = some (Json.str e) ∧
    (runPayload (Except.error e)).getKey "result" = none :=
  ⟨rfl, rfl, rfl⟩

/-- C8: in both branches run returns the value of json.dumps, a string
holding serialized JSON rather than a dict, and on success the value
under result is the JSON array obtained from result.tolist(), never a
bare integer. -/
theorem c8_run_returns_string (p : Except String (List Int)) :
    runScore p = Json.dumps (runPayload p) ∧
    (∀ ys : List Int, p = Except.ok ys →
      runScore p = Json.dumps (Json.obj [("result", Json.arr (ys.map Json.num))]) ∧
      (runPayload p).getKey "result" = some (Json.arr (ys.map Json.num)) ∧
      ∀ n : Int, (runPayload p).getKey "result" ≠ some (Json.num n)) ∧
    (∀ e : String, p = Except.error e →
      runScore p = Json.dumps (Json.obj [("error", Json.str e)])) := by
  refine ⟨runScore_eq_dumps_runPayload p, ?_, ?_⟩
  · intro ys hp; subst hp
    refine ⟨rfl, rfl, ?_⟩
    intro n h
    simp only [runPayload, Json.getKey, List.lookup] at h
    rw [show (("result" == "result") = true) from rfl] at h
    exact Json.noConfusion (Option.some.inj h)
  · intro e hp; subst hp; rfl

theorem c8_run_returns_string_witness :
    runScore (Except.ok [(1 : Int)]) =
      Json.dumps (Json.obj [("result", Json.arr [Json.num 1])]) :=
  ((c8_run_returns_string (Except.ok [(1 : Int)])).2.1 [1] rfl).1

/-- Exceptions that an azureml SDK call in the provisioning cells can
raise: the named ComputeTargetException class, or any other exception
(carried with its message). -/
inductive AzureException where
  | computeTargetException : AzureException
  | other (msg : String) : AzureException

/-- A provisioned compute target (AML compute cluster or AKS cluster),
identified by its name. -/
structure Cluster where
  name : String

/-- Cell 6 of the enterprise-readiness notebook: the try/except around
ComputeTarget(workspace=ws, name=cpu_cluster_name).  tryGet is the
outcome of that external lookup call; createBranch is the outcome of
the except-branch body (building the AmlCompute provisioning
configuration, ComputeTarget.create, wait_for_completion).  Only
ComputeTargetException selects the except branch; any other exception
propagates. -/
def cpuClusterCell (tryGet : Except AzureException Cluster)
    (createBranch : Except AzureException Cluster) : Except AzureException Cluster :=
  match tryGet with
  | Except.ok cpu_cluster => Except.ok cpu_cluster
  | Except.error AzureException.computeTargetException => createBranch
  | Except.error e => Except.error e

/-- Cell 8 of the enterprise-readiness notebook: the try/except around
ComputeTarget(workspace=ws, name=aks_cluster_name).  createBranch is
the outcome of the except-branch body (building the AksCompute
provisioning configuration with the VNet fields and
ComputeTarget.create).  Only ComputeTargetException selects the except
branch; any other exception propagates. -/
def aksClusterCell (tryGet : Except AzureException Cluster)
    (createBranch : Except AzureException Cluster) : Except AzureException Cluster :=
  match tryGet with
  | Except.ok aks_target => Except.ok aks_target
  | Except.error AzureException.computeTargetException => createBranch
  | Except.error e => Except.error e

/-- C3: in both provisioning cells exactly one exception class is
caught, ComputeTargetException, and catching it selects the
create-a-new-cluster branch; every other exception propagates
unchanged out of the cell, and a successful lookup yields the found
cluster. This holds for each of the two cluster types. -/
theorem c3_only_compute_target_exception_caught (m : String) (c : Cluster)
    (createBranch : Except AzureException Cluster) :
    cpuClusterCell (Except.error AzureException.computeTargetException) createBranch
      = createBranch ∧
    aksClusterCell (Except.error AzureException.computeTargetException) createBranch
      = createBranch ∧
    cpuClusterCell (Except.error (AzureException.other m)) createBranch
      = Except.error (AzureException.other m) ∧
    aksClusterCell (Except.error (AzureException.other m)) createBranch
      = Except.error (AzureException.other m) ∧
    cpuClusterCell (Except.ok c) createBranch = Except.ok c ∧
    aksClusterCell (Except.ok c) createBranch = Except.ok c :=
  ⟨rfl, rfl, rfl, rfl, rfl, rfl⟩

/-- Modelled from the spec: the SDK lookup ComputeTarget(workspace, name)
is not part of this repository; per the spec it returns the compute
target registered in the workspace under the given name, and raises
ComputeTargetException when no target with that name exists.  The
workspace's registered targets are embedded as an association list. -/
def computeTargetLookup (targets : List (String × Cluster)) (name : String) :
    Except AzureException Cluster :=
  match targets.lookup name with
  | some c => Except.ok c
  | none => Except.error AzureException.computeTargetException

/-- C4: when a cluster is already registered under the requested name,
re-running either provisioning cell returns that existing cluster and
does not raise, and the create branch is never consulted (the result
is the same for every possible createBranch). -/
theorem c4_rerun_returns_existing (targets : List (String × Cluster))
    (name : String) (c : Cluster) (h : targets.lookup name = some c)
    (createCpu createAks : Except AzureException Cluster) :
    cpuClusterCell (computeTargetLookup targets name) createCpu = Except.ok c ∧
    aksClusterCell (computeTargetLookup targets name) createAks = Except.ok c := by
  unfold computeTargetLookup
  rw [h]
  exact ⟨rfl, rfl⟩

theorem c4_rerun_returns_existing_witness :
    cpuClusterCell
      (computeTargetLookup [("vnetcluster", Cluster.mk "vnetcluster")] "vnetcluster")
      (Except.error (AzureException.other "unused")) =
      Except.ok (Cluster.mk "vnetcluster") ∧
    aksClusterCell
      (computeTargetLookup [("vnetcluster", Cluster.mk "vnetcluster")] "vnetcluster")
      (Except.error (AzureException.other "unused")) =
      Except.ok (Cluster.mk "vnetcluster") :=
  c4_rerun_returns_existing [("vnetcluster", Cluster.mk "vnetcluster")]
    "vnetcluster" (Cluster.mk "vnetcluster") rfl
    (Except.error (AzureException.other "unused"))
    (Except.error (AzureException.other "unused"))

/-- Dtype of a pandas column: object (strings) or int64, the two dtypes
occurring in the attrition table. -/
inductive Dtype where
  | object : Dtype
  | int64 : Dtype
deriving DecidableEq

/-- A cell value of the attrition table: a string or an integer. -/
inductive Cell where
  | str (s : String) : Cell
  | int (n : Int) : Cell
deriving DecidableEq

/-- A pandas column: its label, its dtype and its values, one per row
in row order. -/
structure Column where
  name : String
  dtype : Dtype
  values : List Cell
deriving DecidableEq

/-- A pandas DataFrame, embedded column-oriented: the labelled columns
in their column order; row order is the order of each values list. -/
def DataFrame := List Column

/-- DataFrame.drop([label], axis=1): removes every column carrying the
label; pandas raises KeyError when no column has the label, embedded
as the none outcome. -/
def dropColumn (df : DataFrame) (label : String) : Option DataFrame :=
  if (List.any df fun c => c.name == label) then
    some (List.filter (fun c => c.name != label) df)
  else
    none

/-- The four successive drops applied to attritionData in the
explanation notebook: EmployeeCount, EmployeeNumber, Over18 and
StandardHours. -/
def dropNonInformative (df : DataFrame) : Option DataFrame :=
  (dropColumn df "EmployeeCount").bind fun d1 =>
    (dropColumn d1 "EmployeeNumber").bind fun d2 =>
      (dropColumn d2 "Over18").bind fun d3 =>
        dropColumn d3 "StandardHours"

theorem dropColumn_of_present (df : DataFrame) (label : String)
    (h : (List.any df fun c => c.name == label) = true) :
    dropColumn df label = some (List.filter (fun c => c.name != label) df) := by
  simp [dropColumn, h]

theorem any_filter_of_any {p : Column → Bool} (df : DataFrame) (label : String)
    (h : (List.any df fun c => c.name == label) = true)
    (hp : ∀ c : Column, c.name = label → p c = true) :
    (List.any (List.filter p df) fun c => c.name == label) = true := by
  rw [List.any_eq_true] at h ⊢
  obtain ⟨c, hc, hname⟩ := h
  refine ⟨c, List.mem_filter.mpr ⟨hc, hp c (by simpa using hname)⟩, hname⟩

/-- C5: on any table containing the four non-informative columns, the
sequence of four drops succeeds and produces exactly the table with
those four columns removed: every other column keeps its label, dtype
and full list of values in the original row order, and the relative
column order is unchanged. -/
theorem c5_drops_remove_exactly_four (df : DataFrame)
    (h1 : (List.any df fun c => c.name == "EmployeeCount") = true)
    (h2 : (List.any df fun c => c.name == "EmployeeNumber") = true)
    (h3 : (List.any df fun c => c.name == "Over18") = true)
    (h4 : (List.any df fun c => c.name == "StandardHours") = true) :
    dropNonInformative df =
      some (List.filter
        (fun c => !(["EmployeeCount", "EmployeeNumber", "Over18",
          "StandardHours"].contains c.name)) df) := by
  have h2' := any_filter_of_any (p := fun c => c.name != "EmployeeCount")
    df "EmployeeNumber" h2 (by intro c hc; simp [hc])
  have h3' := any_filter_of_any (p := fun c => c.name != "EmployeeNumber")
    (List.filter (fun c => c.name != "EmployeeCount") df) "Over18"
    (any_filter_of_any df "Over18" h3 (by intro c hc; simp [hc]))
    (by intro c hc; simp [hc])
  have h4' := any_filter_of_any (p := fun c => c.name != "Over18")
    (List.filter (fun c => c.name != "EmployeeNumber")
      (List.filter (fun c => c.name != "EmployeeCount") df)) "StandardHours"
    (any_filter_of_any (p := fun c => c.name != "EmployeeNumber")
      (List.filter (fun c => c.name != "EmployeeCount") df) "StandardHours"
      (any_filter_of_any df "StandardHours" h4 (by intro c hc; simp [hc]))
      (by intro c hc; simp [hc]))
    (by intro c hc; simp [hc])
  unfold dropNonInformative
  rw [dropColumn_of_present df "EmployeeCount" h1, Option.some_bind]
  rw [dropColumn_of_present _ "EmployeeNumber" h2', Option.some_bind]
  rw [dropColumn_of_present _ "Over18" h3', Option.some_bind]
  rw [dropColumn_of_present _ "StandardHours" h4']
  rw [List.filter_filter, List.filter_filter, List.filter_filter]
  congr 1
  apply List.filter_congr
  intro c hc
  by_cases hA : c.name = "EmployeeCount" <;>
    by_cases hB : c.name = "EmployeeNumber" <;>
      by_cases hC : c.name = "Over18" <;>
        by_cases hD : c.name = "StandardHours" <;>
          simp [hA, hB, hC, hD]

/-- A small concrete attrition-style table used to instantiate the
theorems: two rows, four non-informative columns plus Age and the
Attrition label. -/
def sampleAttrition : DataFrame :=
  [ Column.mk "Age" Dtype.int64 [Cell.int 41, Cell.int 49],
    Column.mk "Attrition" Dtype.object [Cell.str "Yes", Cell.str "No"],
    Column.mk "BusinessTravel" Dtype.object [Cell.str "Travel_Rarely", Cell.str "Travel_Rarely"],
    Column.mk "EmployeeCount" Dtype.int64 [Cell.int 1, Cell.int 1],
    Column.mk "EmployeeNumber" Dtype.int64 [Cell.int 1, Cell.int 2],
    Column.mk "Over18" Dtype.object [Cell.str "Y", Cell.str "Y"],
    Column.mk "StandardHours" Dtype.int64 [Cell.int 80, Cell.int 80] ]

theorem c5_drops_remove_exactly_four_witness :
    dropNonInformative sampleAttrition =
      some (List.filter
        (fun c => !(["EmployeeCount", "EmployeeNumber", "Over18",
          "StandardHours"].contains c.name)) sampleAttrition) :=
  c5_drops_remove_exactly_four sampleAttrition
    (by decide) (by decide) (by decide) (by decide)

/-- The loop of the explanation notebook that collects the names of the
columns whose dtype is object into the list categorical, in column
order. -/
def categoricalOf (df : DataFrame) : List String :=
  List.map Column.name (List.filter (fun c => c.dtype == Dtype.object) df)

/-- The column labels of a DataFrame, in column order
(attritionXData.columns). -/
def colNames (df : DataFrame) : List String :=
  List.map Column.name df

/-- pandas Index.difference(other): the labels of the index that are
not in other, with duplicates removed and the result sorted (the
default sort=None sorts a string index lexicographically). -/
def indexDifference (cols other : List String) : List String :=
  List.insertionSort (fun a b => a ≤ b)
    (List.dedup (List.filter (fun c => !(other.contains c)) cols))

/-- numerical = attritionXData.columns.difference(categorical). -/
def numericalOf (df : DataFrame) : List String :=
  indexDifference (colNames df) (categoricalOf df)

theorem filter_contains_of_sublist {s l : List String} (hsub : s.Sublist l)
    (hl : l.Nodup) : List.filter (fun c => s.contains c) l = s := by
  induction hsub with
  | slnil => rfl
  | cons a hsub ih =>
    rename_i s' l'
    rw [List.nodup_cons] at hl
    have ha : ¬ s'.contains a := by
      intro hmem
      exact hl.1 (hsub.subset (by simpa using hmem))
    rw [List.filter_cons_of_neg (by simpa using ha)]
    exact ih hl.2
  | cons₂ a hsub ih =>
    rename_i s' l'
    rw [List.nodup_cons] at hl
    rw [List.filter_cons_of_pos (by simp)]
    congr 1
    rw [List.filter_congr (l := l')
      (q := fun c => s'.contains c)
      (by
        intro c hc
        have hca : c ≠ a := fun h => hl.1 (h ▸ hc)
        simp [List.contains, hca])]
    exact ih hl.2

theorem categoricalOf_sublist (df : DataFrame) :
    (categoricalOf df).Sublist (colNames df) :=
  (List.filter_sublist df).map Column.name

theorem numericalOf_perm (df : DataFrame) (h : (colNames df).Nodup) :
    (numericalOf df).Perm
      (List.filter (fun c => !((categoricalOf df).contains c)) (colNames df)) := by
  unfold numericalOf indexDifference
  refine (List.perm_insertionSort _ _).trans ?_
  rw [List.Nodup.dedup (List.Nodup.filter _ h)]

/-- C6: when the feature table has pairwise distinct column labels, the
categorical list (object-dtype columns) and the numerical index (the
set difference of all columns and the categorical list) cover the
column labels exactly once between them: their concatenation is a
permutation of the column list, and no label belongs to both. -/
theorem c6_partition (df : DataFrame) (h : (colNames df).Nodup) :
    (categoricalOf df ++ numericalOf df).Perm (colNames df) ∧
    ∀ c : String, c ∈ categoricalOf df → c ∉ numericalOf df := by
  constructor
  · refine ((numericalOf_perm df h).append_left (categoricalOf df)).trans ?_
    have hcat : List.filter (fun c => (categoricalOf df).contains c) (colNames df)
        = categoricalOf df :=
      filter_contains_of_sublist (categoricalOf_sublist df) h
    nth_rewrite 1 [← hcat]
    exact List.filter_append_perm _ _
  · intro c hcat hnum
    have hmem := ((numericalOf_perm df h).mem_iff).mp hnum
    rw [List.mem_filter] at hmem
    have hcontains : (categoricalOf df).contains c = false := by
      simpa using hmem.2
    exact absurd hcat (by simpa using hcontains)

theorem c6_partition_witness :
    (categoricalOf sampleAttrition ++ numericalOf sampleAttrition).Perm
      (colNames sampleAttrition) :=
  (c6_partition sampleAttrition (by decide)).1

/-- A feature table whose numeric column labels are not in lexicographic
order: MonthlyIncome precedes Age in column order. -/
def dfOutOfOrder : DataFrame :=
  [ Column.mk "MonthlyIncome" Dtype.int64 [Cell.int 5993],
    Column.mk "Age" Dtype.int64 [Cell.int 41] ]

/-- C9: the numerical index computed by columns.difference(categorical)
is sorted lexicographically for every feature table, and on the
concrete table dfOutOfOrder it differs from the numeric columns listed
in the table's own column order, so the numeric partition's order can
differ from the table's column order. -/
theorem c9_numerical_sorted_not_original_order :
    (∀ df : DataFrame, (numericalOf df).Sorted (fun a b : String => a ≤ b)) ∧
    numericalOf dfOutOfOrder ≠
      List.filter (fun c => !((categoricalOf dfOutOfOrder).contains c))
        (colNames dfOutOfOrder) := by
  constructor
  · intro df
    exact List.sorted_insertionSort _ _
  · have hle : ¬ ("MonthlyIncome" : String) ≤ "Age" := by
      rw [String.le_iff_toList_le]
      decide
    have hL : numericalOf dfOutOfOrder = ["Age", "MonthlyIncome"] := by
      simp [numericalOf, indexDifference, colNames, categoricalOf, dfOutOfOrder,
        List.insertionSort, List.orderedInsert, List.dedup, hle]
    have hR : List.filter (fun c => !((categoricalOf dfOutOfOrder).contains c))
        (colNames dfOutOfOrder) = ["MonthlyIncome", "Age"] := by
      simp [categoricalOf, colNames, dfOutOfOrder]
    rw [hL, hR]
    simp

/-- Conversion of a table cell to its JSON value. -/
def cellToJson : Cell → Json
  | Cell.str s => Json.str s
  | Cell.int n => Json.num n

/-- The JSON value carried by pd.DataFrame.to_json(sample) after the
json.loads round trip in the consuming cell: pandas serializes with
the default orientation for data frames, columns, namely an object
keyed by column label whose value is an object keyed by the row index
rendered as a string. -/
def toJsonColumns (df : DataFrame) : Json :=
  Json.obj (List.map (fun col =>
    (col.name, Json.obj (List.map (fun iv => (toString iv.1, cellToJson iv.2))
      col.values.enum))) df)

/-- Number of rows of a column-oriented table: the length of its
longest column. -/
def nRows (df : DataFrame) : Nat :=
  List.foldr max 0 (List.map (fun c => c.values.length) df)

/-- Modelled from the spec: the spec describes the request body as
holding the JSON-serialized row-oriented table; row-oriented (records)
serialization is a JSON array holding one object per row, each object
keyed by column label. -/
def toJsonRecords (df : DataFrame) : Json :=
  Json.arr (List.map (fun i =>
    Json.obj (List.filterMap (fun col =>
      (col.values.get? i).map (fun v => (col.name, cellToJson v))) df))
    (List.range (nRows df)))

/-- An HTTP request as assembled by requests.post in the consuming
cell. -/
structure HttpRequest where
  method : String
  url : String
  headers : List (String × String)
  body : String

/-- Cell 38 of the enterprise-readiness notebook: serialize the sample
row with pd.DataFrame.to_json, parse it back, wrap it as the value of
the single key data, serialize the wrapper with json.dumps, attach the
Content-Type and Authorization headers with the token obtained from
aks_service.get_token(), and POST to the scoring URI. -/
def buildScoringRequest (scoring_uri access_token : String) (sample : DataFrame) :
    HttpRequest :=
  { method := "POST"
    url := scoring_uri
    headers := [("Content-Type", "application/json"),
                ("Authorization", "Bearer " ++ access_token)]
    body := Json.dumps (Json.obj [("data", toJsonColumns sample)]) }

/-- C7 (amended): the request the consuming client constructs is a
POST whose headers are exactly Content-Type: application/json and
Authorization: Bearer followed by the service token, and whose body is
the serialization of a JSON object with the single key data holding
the column-oriented (pandas default) JSON serialization of the sample
table. -/
theorem c7_request_shape (uri token : String) (sample : DataFrame) :
    (buildScoringRequest uri token sample).method = "POST" ∧
    (buildScoringRequest uri token sample).url = uri ∧
    (buildScoringRequest uri token sample).headers =
      [("Content-Type", "application/json"),
       ("Authorization", "Bearer " ++ token)] ∧
    (buildScoringRequest uri token sample).body =
      Json.dumps (Json.obj [("data", toJsonColumns sample)]) ∧
    (Json.obj [("data", toJsonColumns sample)]).getKey "data" =
      some (toJsonColumns sample) :=
  ⟨rfl, rfl, rfl, rfl, rfl⟩

/-- The sample row the consuming cell scores (the employee that is not
an attrition risk), with its thirty feature columns. -/
def sampleRow : DataFrame :=
  [ Column.mk "Age" Dtype.int64 [Cell.int 41],
    Column.mk "BusinessTravel" Dtype.object [Cell.str "Travel_Rarely"],
    Column.mk "DailyRate" Dtype.int64 [Cell.int 1102],
    Column.mk "Department" Dtype.object [Cell.str "Sales"],
    Column.mk "DistanceFromHome" Dtype.int64 [Cell.int 1],
    Column.mk "Education" Dtype.int64 [Cell.int 2],
    Column.mk "EducationField" Dtype.object [Cell.str "Life Sciences"],
    Column.mk "EnvironmentSatisfaction" Dtype.int64 [Cell.int 2],
    Column.mk "Gender" Dtype.object [Cell.str "Female"],
    Column.mk "HourlyRate" Dtype.int64 [Cell.int 94],
    Column.mk "JobInvolvement" Dtype.int64 [Cell.int 3],
    Column.mk "JobLevel" Dtype.int64 [Cell.int 2],
    Column.mk "JobRole" Dtype.object [Cell.str "Sales Executive"],
    Column.mk "JobSatisfaction" Dtype.int64 [Cell.int 4],
    Column.mk "MaritalStatus" Dtype.object [Cell.str "Single"],
    Column.mk "MonthlyIncome" Dtype.int64 [Cell.int 5993],
    Column.mk "MonthlyRate" Dtype.int64 [Cell.int 19479],
    Column.mk "NumCompaniesWorked" Dtype.int64 [Cell.int 8],
    Column.mk "OverTime" Dtype.int64 [Cell.int 0],
    Column.mk "PercentSalaryHike" Dtype.int64 [Cell.int 11],
    Column.mk "PerformanceRating" Dtype.int64 [Cell.int 3],
    Column.mk "RelationshipSatisfaction" Dtype.int64 [Cell.int 1],
    Column.mk "StockOptionLevel" Dtype.int64 [Cell.int 0],
    Column.mk "TotalWorkingYears" Dtype.int64 [Cell.int 8],
    Column.mk "TrainingTimesLastYear" Dtype.int64 [Cell.int 0],
    Column.mk "WorkLifeBalance" Dtype.int64 [Cell.int 1],
    Column.mk "YearsAtCompany" Dtype.int64 [Cell.int 6],
    Column.mk "YearsInCurrentRole" Dtype.int64 [Cell.int 4],
    Column.mk "YearsSinceLastPromotion" Dtype.int64 [Cell.int 0],
    Column.mk "YearsWithCurrManager" Dtype.int64 [Cell.int 5] ]

/-- C7 counterexample: on the concrete sample row of the consuming
cell, the value placed under the key data in the request body is the
column-oriented serialization, which differs from the row-oriented
serialization of the same table (the former is a JSON object keyed by
column label, the latter a JSON array of row objects). -/
theorem c7_counterexample :
    (buildScoringRequest "uri" "token" sampleRow).body =
      Json.dumps (Json.obj [("data", toJsonColumns sampleRow)]) ∧
    toJsonColumns sampleRow ≠ toJsonRecords sampleRow := by
  refine ⟨rfl, ?_⟩
  simp only [toJsonColumns, toJsonRecords]
  exact fun h => Json.noConfusion h

/-- The literal instance_num = 1 of the local-explanation cell. -/
def instance_num : Nat := 1

/-- The argument passed to explainer.explain_local: the slice
x_test[:instance_num], the first instance_num rows of the test set. -/
def explainLocalInput {α : Type} (x_test : List α) : List α :=
  List.take instance_num x_test

/-- The value clf.predict(x_test)[instance_num] of the next cell: the
series of predictions over the whole test set, indexed at
instance_num (none models the IndexError raised when the index is out
of range). -/
def prediction_value {α : Type} (pred : α → Int) (x_test : List α) : Option Int :=
  List.get? (List.map pred x_test) instance_num

/-- C10: whenever the test set has at least two rows, explain_local
receives exactly the row at position 0 (the slice x_test[:1]), while
the prediction used to index the ranked local importances is the
prediction for the row at position 1; the explained row position and
the predicted row position differ. -/
theorem c10_explained_row_ne_predicted_row {α : Type} (pred : α → Int)
    (x_test : List α) (h2 : 2 ≤ x_test.length) :
    explainLocalInput x_test = [x_test.get ⟨0, by omega⟩] ∧
    prediction_value pred x_test = some (pred (x_test.get ⟨1, by omega⟩)) ∧
    instance_num = 1 ∧ instance_num ≠ 0 := by
  match x_test, h2 with
  | a :: b :: t, _ =>
    refine ⟨rfl, ?_, rfl, by decide⟩
    rfl

theorem c10_explained_row_ne_predicted_row_witness :
    explainLocalInput [(10 : Int), 20] = [10] ∧
    prediction_value (fun x => x) [(10 : Int), 20] = some 20 ∧
    instance_num = 1 ∧ instance_num ≠ 0 :=
  c10_explained_row_ne_predicted_row (fun x => x) [(10 : Int), 20] (by decide)
